import Mathlib

/-!
Shallow embedding of the authentication core of the ISIDRO web API
(src/web/security.py, src/web/models.py, src/web/api/auth.py).

Machine time is modelled as POSIX seconds (Nat).  The PyJWT library is
modelled structurally: a wire token is either a well-formed JWT (a claims
payload plus a signature string) or an unparseable string; encoding signs
the serialized claims with an HMAC modelled as a concrete string function
of the secret and the claims, and decoding checks the signature and then
the `exp` claim exactly as PyJWT does (`ExpiredSignatureError` when
`exp <= now`, `InvalidTokenError` for a bad signature or an unparseable
string; both exception classes are subclasses of `InvalidTokenError` and
are caught by the verify functions in security.py).
-/

namespace Isidro

/-- The JWT claims dictionary built by security.py: `user_id`, `exp`,
`iat` and `type`.  `payload.get` on a missing key yields Python `None`,
so `user_id` and `type` are `Option`s (tokens minted by this code always
set them, but `verify_*` must handle foreign payloads). -/
structure JwtPayload where
  user_id : Option Int
  exp : Nat
  iat : Nat
  type : Option String
deriving DecidableEq, Repr

/-- Serialization of the claims dictionary, the input of the signature. -/
def serializeClaims (p : JwtPayload) : String :=
  "user_id=" ++ (match p.user_id with | none => "null" | some u => toString u)
    ++ ";exp=" ++ toString p.exp
    ++ ";iat=" ++ toString p.iat
    ++ ";type=" ++ (match p.type with | none => "null" | some t => t)

/-- The HS256 signature segment, modelled as a string determined by the
secret and the serialized claims. -/
def macSig (secret : String) (p : JwtPayload) : String :=
  "HMACSHA256(" ++ secret ++ "," ++ serializeClaims p ++ ")"

/-- A token string on the wire: either a structurally well-formed JWT
(claims segment plus signature segment) or a string that does not parse
as a JWT at all. -/
inductive TokenWire where
  | signed (payload : JwtPayload) (sig : String)
  | malformed (raw : String)
deriving DecidableEq, Repr

/-- PyJWT decode failures relevant here.  `ExpiredSignatureError` and all
parse/signature failures are subclasses of `InvalidTokenError`. -/
inductive JwtError where
  | expiredSignature
  | invalidToken
deriving DecidableEq, Repr

/-- `jwt.encode(payload, secret, algorithm="HS256")`. -/
def jwtEncode (p : JwtPayload) (secret : String) : TokenWire :=
  TokenWire.signed p (macSig secret p)

/-- `jwt.decode(token, secret, algorithms=["HS256"])` evaluated at clock
`now`: an unparseable string or a wrong signature is `InvalidTokenError`;
then the `exp` claim is validated (PyJWT raises `ExpiredSignatureError`
when `exp <= now`); otherwise the payload is returned. -/
def jwtDecode (token : TokenWire) (secret : String) (now : Nat) :
    Except JwtError JwtPayload :=
  match token with
  | TokenWire.malformed _ => Except.error JwtError.invalidToken
  | TokenWire.signed p sig =>
      if sig ≠ macSig secret p then Except.error JwtError.invalidToken
      else if p.exp ≤ now then Except.error JwtError.expiredSignature
      else Except.ok p

/-! Constants of src/web/security.py. -/

def ACCESS_TOKEN_EXPIRATION_MINUTES : Nat := 24 * 60

def REFRESH_TOKEN_EXPIRATION_DAYS : Nat := 15

/-- `create_access_token(user_id)` (default `expires_delta`), with the
clock `now` standing for `datetime.utcnow()`:
claims `{user_id, exp = now + 24h, iat = now, type = "access"}`,
signed with the module-level secret. -/
def create_access_token (secret : String) (user_id : Int) (now : Nat) :
    TokenWire :=
  jwtEncode
    { user_id := some user_id
      exp := now + ACCESS_TOKEN_EXPIRATION_MINUTES * 60
      iat := now
      type := some "access" } secret

/-- `create_refresh_token(user_id)` (default `expires_delta`):
claims `{user_id, exp = now + 15d, iat = now, type = "refresh"}`. -/
def create_refresh_token (secret : String) (user_id : Int) (now : Nat) :
    TokenWire :=
  jwtEncode
    { user_id := some user_id
      exp := now + REFRESH_TOKEN_EXPIRATION_DAYS * 24 * 60 * 60
      iat := now
      type := some "refresh" } secret

/-- `verify_access_token(token)`: decode (catching
`ExpiredSignatureError` and `InvalidTokenError`, both returning `None`),
then reject if the `type` claim is not `"access"`, then reject a missing
`user_id`; otherwise return the embedded user id. -/
def verify_access_token (secret : String) (token : TokenWire) (now : Nat) :
    Option Int :=
  match jwtDecode token secret now with
  | Except.error _ => none
  | Except.ok payload =>
      if payload.type ≠ some "access" then none
      else
        match payload.user_id with
        | none => none
        | some user_id => some user_id

/-- `verify_refresh_token(token)`: identical to `verify_access_token`
except that the required `type` claim is `"refresh"`. -/
def verify_refresh_token (secret : String) (token : TokenWire) (now : Nat) :
    Option Int :=
  match jwtDecode token secret now with
  | Except.error _ => none
  | Except.ok payload =>
      if payload.type ≠ some "refresh" then none
      else
        match payload.user_id with
        | none => none
        | some user_id => some user_id

/-!
bcrypt model (src/web/models.py).  A stored password hash is modelled
structurally: either a well-formed bcrypt modular-crypt string (cost,
the embedded salt, and the digest segment) or a string that the bcrypt
library cannot parse.  The bcrypt key-derivation function itself is
external to the repository and is kept abstract: the development is
parameterized over `digestFn salt-and-cost-dependent digest`.  The
Python `bcrypt` library raises `ValueError("Invalid salt")` when the
stored hash does not parse, including from `bcrypt.checkpw`.
-/

/-- A stored password-hash string: `bcrypt c s d` is the well-formed
modular-crypt string embedding cost `c`, salt `s` and digest `d`
(distinct salts give distinct strings, since the salt appears verbatim
in the string); `malformed raw` is any string the bcrypt library cannot
parse. -/
inductive StoredHash where
  | bcrypt (cost : Nat) (salt : String) (digest : String)
  | malformed (raw : String)
deriving DecidableEq, Repr

/-- `bcrypt.hashpw(password, salt)` where the salt blob carries cost
`cost` and random salt `salt`: the output string embeds the cost, the
salt, and the digest computed by the bcrypt KDF `digestFn`. -/
def bcrypt_hashpw (digestFn : String → String → Nat → String)
    (password : String) (cost : Nat) (salt : String) : StoredHash :=
  StoredHash.bcrypt cost salt (digestFn password salt cost)

/-- `bcrypt.checkpw(password, hashed)`: parses the stored hash, recomputes
the digest with the embedded salt and cost, and compares; on an
unparseable stored hash it raises `ValueError("Invalid salt")`, modelled
as `Except.error`. -/
def bcrypt_checkpw (digestFn : String → String → Nat → String)
    (password : String) (hashed : StoredHash) : Except String Bool :=
  match hashed with
  | StoredHash.bcrypt cost salt digest =>
      Except.ok (digestFn password salt cost == digest)
  | StoredHash.malformed _ => Except.error "Invalid salt"

/-- `hash_password(password)` (models.py): `bcrypt.gensalt(rounds=12)`
draws a fresh random salt, modelled as the explicit argument `salt`;
the password is hashed with it at cost 12. -/
def hash_password (digestFn : String → String → Nat → String)
    (password : String) (salt : String) : StoredHash :=
  bcrypt_hashpw digestFn password 12 salt

/-- `verify_password(password, hashed_password)` (models.py): a direct
call to `bcrypt.checkpw`, with no exception handling of its own. -/
def verify_password (digestFn : String → String → Nat → String)
    (password : String) (hashed : StoredHash) : Except String Bool :=
  bcrypt_checkpw digestFn password hashed

/-!
Login / refresh endpoints (src/web/api/auth.py).  The users table is a
list of rows; `scalar_one_or_none` over the unique email column is the
first (only) row with that email.  A Python exception escaping the
handler is `PyError.valueError`; `raise HTTPException(...)` is
`PyError.http`.
-/

/-- A row of the `users` table (the columns the login flow reads). -/
structure User where
  id : Int
  name : String
  email : String
  password : StoredHash
deriving DecidableEq, Repr

/-- `db.execute(select(User).where(User.email == email))` followed by
`scalar_one_or_none()` on the unique email column. -/
def findUserByEmail (db : List User) (email : String) : Option User :=
  db.find? (fun u => u.email == email)

/-- `fastapi.HTTPException`: status code, detail, optional headers. -/
structure HTTPException where
  status_code : Nat
  detail : String
  headers : Option (List (String × String))
deriving DecidableEq, Repr

/-- An exception escaping an endpoint: an `HTTPException` (mapped to its
status code) or an uncaught `ValueError` (mapped to a generic 500). -/
inductive PyError where
  | http (e : HTTPException)
  | valueError (msg : String)
deriving DecidableEq, Repr

/-- `response.set_cookie(...)` arguments recorded on the response. -/
structure Cookie where
  key : String
  value : TokenWire
  max_age : Nat
  httponly : Bool
  secure : Bool
  samesite : String
deriving DecidableEq, Repr

/-- The successful login response: the JSON body fields written by
`login` plus the one cookie set on the response. -/
structure LoginSuccess where
  id : Int
  name : String
  email : String
  access_token : TokenWire
  token_type : String
  message : String
  cookie : Cookie
deriving DecidableEq, Repr

/-- The `TokenResponse` body returned by the refresh endpoint: an access
token only — the model has no field for a refresh token and the handler
sets no cookie. -/
structure TokenResponse where
  access_token : TokenWire
  token_type : String
  message : String
deriving DecidableEq, Repr

/-- `POST /api/auth/login` (auth.py): look up the user by email (401 if
absent), verify the password (401 on mismatch; an unparseable stored
hash makes `bcrypt.checkpw` raise `ValueError`, which the handler does
not catch), then mint one access and one refresh token, return the
body, and set the `refresh_token` cookie (HttpOnly, SameSite=Lax,
max-age 15 days in seconds, secure=False). -/
def login (digestFn : String → String → Nat → String) (secret : String)
    (db : List User) (email password : String) (now : Nat) :
    Except PyError LoginSuccess :=
  match findUserByEmail db email with
  | none =>
      Except.error (PyError.http
        { status_code := 401, detail := "Invalid email or password"
          headers := none })
  | some user =>
      match verify_password digestFn password user.password with
      | Except.error msg => Except.error (PyError.valueError msg)
      | Except.ok ok =>
          if !ok then
            Except.error (PyError.http
              { status_code := 401, detail := "Invalid email or password"
                headers := none })
          else
            Except.ok
              { id := user.id
                name := user.name
                email := user.email
                access_token := create_access_token secret user.id now
                token_type := "bearer"
                message := "Login successful"
                cookie :=
                  { key := "refresh_token"
                    value := create_refresh_token secret user.id now
                    max_age := 15 * 24 * 60 * 60
                    httponly := true
                    secure := false
                    samesite := "lax" } }

/-- `POST /api/auth/refresh` (auth.py): verify the refresh token (401
with a `WWW-Authenticate: Bearer` header when invalid or expired), then
mint and return a new access token.  Note the handler's only inputs are
the request's token, the module secret and the clock: it takes no
database dependency. -/
def refresh_access_token (secret : String) (refresh_token : TokenWire)
    (now : Nat) : Except PyError TokenResponse :=
  match verify_refresh_token secret refresh_token now with
  | none =>
      Except.error (PyError.http
        { status_code := 401, detail := "Invalid or expired refresh token"
          headers := some [("WWW-Authenticate", "Bearer")] })
  | some user_id =>
      Except.ok
        { access_token := create_access_token secret user_id now
          token_type := "bearer"
          message := "Token refreshed successfully" }

/-!
Theorems.
-/

/-- C1.  Token type discrimination: for every user id `U` and issuance
time `T`, a token produced by `create_refresh_token` is rejected
(returns `none`) by `verify_access_token` at every verification time —
in particular before its expiry, when its signature is valid — and
symmetrically an access token is rejected by `verify_refresh_token`. -/
theorem token_type_discrimination (secret : String) (U : Int) (T now : Nat) :
    verify_access_token secret (create_refresh_token secret U T) now = none ∧
    verify_refresh_token secret (create_access_token secret U T) now = none := by
  constructor
  · simp only [verify_access_token, create_refresh_token, jwtEncode, jwtDecode,
      ne_eq, not_true_eq_false, if_false]
    by_cases h : T + REFRESH_TOKEN_EXPIRATION_DAYS * 24 * 60 * 60 ≤ now <;>
      simp [h]
  · simp only [verify_refresh_token, create_access_token, jwtEncode, jwtDecode,
      ne_eq, not_true_eq_false, if_false]
    by_cases h : T + ACCESS_TOKEN_EXPIRATION_MINUTES * 60 ≤ now <;>
      simp [h]

/-- C2.  Access-token issue/verify round trip with 24-hour expiry: for
every user id `U` and clock `T`, the token minted by
`create_access_token` at `T` verifies to exactly `U` at `T + 1` minute,
and is rejected as expired (`none`) at `T + 25` hours. -/
theorem access_token_roundtrip (secret : String) (U : Int) (T : Nat) :
    verify_access_token secret (create_access_token secret U T) (T + 60)
      = some U ∧
    verify_access_token secret (create_access_token secret U T)
      (T + 25 * 60 * 60) = none := by
  constructor
  · have h : ¬ (T + ACCESS_TOKEN_EXPIRATION_MINUTES * 60 ≤ T + 60) := by
      simp only [ACCESS_TOKEN_EXPIRATION_MINUTES]; omega
    simp [verify_access_token, create_access_token, jwtEncode, jwtDecode, h]
  · have h : T + ACCESS_TOKEN_EXPIRATION_MINUTES * 60 ≤ T + 25 * 60 * 60 := by
      simp only [ACCESS_TOKEN_EXPIRATION_MINUTES]; omega
    simp [verify_access_token, create_access_token, jwtEncode, jwtDecode, h]

/-- C3.  Anti-enumeration at login: a login for an email with no user
row and a login for a registered email with a wrong password both fail
with the exact same `HTTPException` value — status 401, detail
"Invalid email or password", no extra headers — so the two outcomes are
equal and the response reveals nothing about whether the email exists. -/
theorem login_anti_enumeration
    (digestFn : String → String → Nat → String) (secret : String)
    (db : List User) (email1 pw1 email2 pw2 : String) (now1 now2 : Nat)
    (user : User) (c : Nat) (s d : String)
    (habsent : findUserByEmail db email1 = none)
    (hfound : findUserByEmail db email2 = some user)
    (hhash : user.password = StoredHash.bcrypt c s d)
    (hwrong : digestFn pw2 s c ≠ d) :
    login digestFn secret db email1 pw1 now1 =
      Except.error (PyError.http
        { status_code := 401, detail := "Invalid email or password"
          headers := none }) ∧
    login digestFn secret db email2 pw2 now2 =
      login digestFn secret db email1 pw1 now1 := by
  constructor
  · simp [login, habsent]
  · simp [login, habsent, hfound, hhash, verify_password, bcrypt_checkpw,
      hwrong]

/-- C3 witness: a concrete two-login scenario — an unregistered email
and a registered email with the wrong password — evaluated on a
one-user table with a toy bcrypt KDF. -/
theorem login_anti_enumeration_witness :
    login (fun p s _ => p ++ s) "k"
        [{ id := 7, name := "Ana", email := "a@x.com",
           password := StoredHash.bcrypt 12 "S" "secret123S" }]
        "b@x.com" "whatever" 100 =
      Except.error (PyError.http
        { status_code := 401, detail := "Invalid email or password"
          headers := none }) ∧
    login (fun p s _ => p ++ s) "k"
        [{ id := 7, name := "Ana", email := "a@x.com",
           password := StoredHash.bcrypt 12 "S" "secret123S" }]
        "a@x.com" "wrongpw" 200 =
      login (fun p s _ => p ++ s) "k"
        [{ id := 7, name := "Ana", email := "a@x.com",
           password := StoredHash.bcrypt 12 "S" "secret123S" }]
        "b@x.com" "whatever" 100 :=
  login_anti_enumeration (fun p s _ => p ++ s) "k"
    [{ id := 7, name := "Ana", email := "a@x.com",
       password := StoredHash.bcrypt 12 "S" "secret123S" }]
    "b@x.com" "whatever" "a@x.com" "wrongpw" 100 200
    { id := 7, name := "Ana", email := "a@x.com",
      password := StoredHash.bcrypt 12 "S" "secret123S" }
    12 "S" "secret123S"
    (by decide) (by decide) rfl (by decide)

/-- C4.  Password hash round trip and salting: for every KDF, password
`P` and distinct fresh salts `s1 ≠ s2` (the randomness of
`bcrypt.gensalt`), both hash strings verify against `P`, and the two
hash strings differ because the salt is embedded verbatim in the
output. -/
theorem hash_password_roundtrip_salted
    (digestFn : String → String → Nat → String) (P s1 s2 : String)
    (hsalts : s1 ≠ s2) :
    verify_password digestFn P (hash_password digestFn P s1)
      = Except.ok true ∧
    verify_password digestFn P (hash_password digestFn P s2)
      = Except.ok true ∧
    hash_password digestFn P s1 ≠ hash_password digestFn P s2 := by
  refine ⟨?_, ?_, ?_⟩
  · simp [verify_password, hash_password, bcrypt_checkpw, bcrypt_hashpw]
  · simp [verify_password, hash_password, bcrypt_checkpw, bcrypt_hashpw]
  · simp [hash_password, bcrypt_hashpw, hsalts]

/-- C4 witness: concrete password "secret123" hashed under two distinct
salts with a toy KDF. -/
theorem hash_password_roundtrip_salted_witness :
    verify_password (fun p s _ => p ++ s) "secret123"
        (hash_password (fun p s _ => p ++ s) "secret123" "saltA")
      = Except.ok true ∧
    verify_password (fun p s _ => p ++ s) "secret123"
        (hash_password (fun p s _ => p ++ s) "secret123" "saltB")
      = Except.ok true ∧
    hash_password (fun p s _ => p ++ s) "secret123" "saltA" ≠
      hash_password (fun p s _ => p ++ s) "secret123" "saltB" :=
  hash_password_roundtrip_salted (fun p s _ => p ++ s) "secret123"
    "saltA" "saltB" (by decide)

/-- C5 counterexample: `verify_password` does NOT return a boolean on a
structurally malformed stored hash — `bcrypt.checkpw` raises
`ValueError("Invalid salt")` and `verify_password` has no exception
handling, so the concrete call below yields no boolean at all. -/
theorem verify_password_raises_on_malformed :
    ¬ ∃ b : Bool,
      verify_password (fun p s _ => p ++ s) "password123"
        (StoredHash.malformed "nothash") = Except.ok b := by
  intro ⟨b, hb⟩
  simp [verify_password, bcrypt_checkpw] at hb

/-- C5 (amended).  `verify_password` returns a boolean — false on any
digest mismatch — for every password and every structurally well-formed
bcrypt stored hash; on a malformed stored hash it propagates bcrypt's
`ValueError("Invalid salt")` instead of returning false. -/
theorem verify_password_wellformed_total
    (digestFn : String → String → Nat → String) (P : String) (c : Nat)
    (s d raw : String) :
    verify_password digestFn P (StoredHash.bcrypt c s d)
      = Except.ok (digestFn P s c == d) ∧
    verify_password digestFn P (StoredHash.malformed raw)
      = Except.error "Invalid salt" := by
  exact ⟨rfl, rfl⟩

/-- C6.  Refresh flow: for every refresh token minted at `T` for user
`U` and any call time `now` before its 15-day expiry, the refresh
endpoint returns 200 with exactly a `TokenResponse` — a record holding
only the newly minted access token for `U` (whose embedded `user_id`
claim is `some U` and which verifies to `U`), with no refresh-token
field and no cookie, so the refresh token is not rotated — and the same
refresh token still verifies to `U` at every later time `now2` before
its original expiry. -/
theorem refresh_flow (secret : String) (U : Int) (T now now2 : Nat)
    (h1 : now < T + REFRESH_TOKEN_EXPIRATION_DAYS * 24 * 60 * 60)
    (h2 : now2 < T + REFRESH_TOKEN_EXPIRATION_DAYS * 24 * 60 * 60) :
    refresh_access_token secret (create_refresh_token secret U T) now =
      Except.ok { access_token := create_access_token secret U now
                  token_type := "bearer"
                  message := "Token refreshed successfully" } ∧
    verify_access_token secret (create_access_token secret U now) (now + 60)
      = some U ∧
    verify_refresh_token secret (create_refresh_token secret U T) now2
      = some U := by
  have hexp : ¬ (T + REFRESH_TOKEN_EXPIRATION_DAYS * 24 * 60 * 60 ≤ now) := by
    omega
  have hexp2 : ¬ (T + REFRESH_TOKEN_EXPIRATION_DAYS * 24 * 60 * 60 ≤ now2) := by
    omega
  have hv : verify_refresh_token secret (create_refresh_token secret U T) now
      = some U := by
    simp [verify_refresh_token, create_refresh_token, jwtEncode, jwtDecode, hexp]
  refine ⟨?_, ?_, ?_⟩
  · simp [refresh_access_token, hv]
  · have h : ¬ (now + ACCESS_TOKEN_EXPIRATION_MINUTES * 60 ≤ now + 60) := by
      simp only [ACCESS_TOKEN_EXPIRATION_MINUTES]; omega
    simp [verify_access_token, create_access_token, jwtEncode, jwtDecode, h]
  · simp [verify_refresh_token, create_refresh_token, jwtEncode, jwtDecode,
      hexp2]

/-- C6 witness: a refresh token minted at time 0 for user 7, refreshed
at time 60, and verified again at time 1000 — both before the 15-day
expiry. -/
theorem refresh_flow_witness :
    refresh_access_token "k" (create_refresh_token "k" 7 0) 60 =
      Except.ok { access_token := create_access_token "k" 7 60
                  token_type := "bearer"
                  message := "Token refreshed successfully" } ∧
    verify_access_token "k" (create_access_token "k" 7 60) (60 + 60)
      = some 7 ∧
    verify_refresh_token "k" (create_refresh_token "k" 7 0) 1000 = some 7 :=
  refresh_flow "k" 7 0 60 1000 (by decide) (by decide)

/-- The failure classes of token verification: a string that does not
parse as a JWT, a tampered signature segment, a passed `exp` claim, or
a `type` claim different from the expected one. -/
def badToken (secret : String) (now : Nat) (expectedType : String) :
    TokenWire → Prop
  | TokenWire.malformed _ => True
  | TokenWire.signed p sig =>
      sig ≠ macSig secret p ∨ p.exp ≤ now ∨ p.type ≠ some expectedType

/-- C7.  Token verification totality: for every input token in any
failure class (malformed, tampered signature, expired, or wrong type),
`verify_access_token` and `verify_refresh_token` return the sentinel
`none` — their return type is a total `Option Int`, so no verification
failure escapes as an uncaught fault (never a generic 500). -/
theorem verify_failure_returns_none (secret : String) (now : Nat)
    (t1 t2 : TokenWire)
    (h1 : badToken secret now "access" t1)
    (h2 : badToken secret now "refresh" t2) :
    verify_access_token secret t1 now = none ∧
    verify_refresh_token secret t2 now = none := by
  constructor
  · cases t1 with
    | malformed raw => simp [verify_access_token, jwtDecode]
    | signed p sig =>
        by_cases hs : sig = macSig secret p
        · by_cases he : p.exp ≤ now
          · simp [verify_access_token, jwtDecode, hs, he]
          · have htype : p.type ≠ some "access" := by
              rcases h1 with h | h | h
              · exact absurd hs h
              · exact absurd h he
              · exact h
            simp [verify_access_token, jwtDecode, hs, he, htype]
        · simp [verify_access_token, jwtDecode, hs]
  · cases t2 with
    | malformed raw => simp [verify_refresh_token, jwtDecode]
    | signed p sig =>
        by_cases hs : sig = macSig secret p
        · by_cases he : p.exp ≤ now
          · simp [verify_refresh_token, jwtDecode, hs, he]
          · have htype : p.type ≠ some "refresh" := by
              rcases h2 with h | h | h
              · exact absurd hs h
              · exact absurd h he
              · exact h
            simp [verify_refresh_token, jwtDecode, hs, he, htype]
        · simp [verify_refresh_token, jwtDecode, hs]

/-- C7 witness: a garbage string fed to `verify_access_token` and a
refresh-shaped payload with a tampered signature fed to
`verify_refresh_token`; both come back `none`. -/
theorem verify_failure_returns_none_witness :
    verify_access_token "k" (TokenWire.malformed "garbage") 5 = none ∧
    verify_refresh_token "k"
      (TokenWire.signed
        { user_id := some 1, exp := 999, iat := 0, type := some "refresh" }
        "tampered") 5 = none :=
  verify_failure_returns_none "k" 5 (TokenWire.malformed "garbage")
    (TokenWire.signed
      { user_id := some 1, exp := 999, iat := 0, type := some "refresh" }
      "tampered")
    trivial (Or.inl (by decide))

/-- C8.  Login cookie contract: every successful login sets exactly one
cookie, named `refresh_token`, carrying the refresh token minted for the
logged-in user's id, with `HttpOnly` set, `SameSite=Lax`, and a max-age
of `15 * 24 * 60 * 60 = 1296000` seconds — the refresh token's 15-day
lifetime. -/
theorem login_cookie_contract
    (digestFn : String → String → Nat → String) (secret : String)
    (db : List User) (email pw : String) (now : Nat) (user : User)
    (c : Nat) (s d : String)
    (hfound : findUserByEmail db email = some user)
    (hhash : user.password = StoredHash.bcrypt c s d)
    (hok : digestFn pw s c = d) :
    ∃ resp, login digestFn secret db email pw now = Except.ok resp ∧
      resp.cookie =
        { key := "refresh_token"
          value := create_refresh_token secret user.id now
          max_age := 15 * 24 * 60 * 60
          httponly := true
          secure := false
          samesite := "lax" } ∧
      resp.cookie.max_age = 1296000 := by
  have hlogin : login digestFn secret db email pw now =
      Except.ok
        { id := user.id, name := user.name, email := user.email
          access_token := create_access_token secret user.id now
          token_type := "bearer", message := "Login successful"
          cookie :=
            { key := "refresh_token"
              value := create_refresh_token secret user.id now
              max_age := 15 * 24 * 60 * 60
              httponly := true, secure := false, samesite := "lax" } } := by
    simp [login, hfound, hhash, verify_password, bcrypt_checkpw, hok]
  exact ⟨_, hlogin, rfl, rfl⟩

/-- C8 witness: a concrete successful login on a one-user table with a
toy bcrypt KDF. -/
theorem login_cookie_contract_witness :
    ∃ resp, login (fun p s _ => p ++ s) "k"
        [{ id := 7, name := "Ana", email := "a@x.com",
           password := StoredHash.bcrypt 12 "S" "secret123S" }]
        "a@x.com" "secret123" 100 = Except.ok resp ∧
      resp.cookie =
        { key := "refresh_token"
          value := create_refresh_token "k" 7 100
          max_age := 15 * 24 * 60 * 60
          httponly := true
          secure := false
          samesite := "lax" } ∧
      resp.cookie.max_age = 1296000 :=
  login_cookie_contract (fun p s _ => p ++ s) "k"
    [{ id := 7, name := "Ana", email := "a@x.com",
       password := StoredHash.bcrypt 12 "S" "secret123S" }]
    "a@x.com" "secret123" 100
    { id := 7, name := "Ana", email := "a@x.com",
      password := StoredHash.bcrypt 12 "S" "secret123S" }
    12 "S" "secret123S" (by decide) rfl (by decide)

/-- C9.  The refresh operation performs no user-existence lookup:
`refresh_access_token` takes no database argument at all, so for every
users table `db` containing no row with id `U`, a validly-signed,
unexpired refresh token embedding `U` still yields a fresh access token
for `U`; the only inputs consulted are the token, the signing secret
and the clock. -/
theorem refresh_no_user_lookup (secret : String) (U : Int) (T now : Nat)
    (db : List User)
    (hvalid : now < T + REFRESH_TOKEN_EXPIRATION_DAYS * 24 * 60 * 60)
    (_hnouser : ∀ u ∈ db, u.id ≠ U) :
    refresh_access_token secret (create_refresh_token secret U T) now =
      Except.ok { access_token := create_access_token secret U now
                  token_type := "bearer"
                  message := "Token refreshed successfully" } := by
  have hexp : ¬ (T + REFRESH_TOKEN_EXPIRATION_DAYS * 24 * 60 * 60 ≤ now) := by
    omega
  have hv : verify_refresh_token secret (create_refresh_token secret U T) now
      = some U := by
    simp [verify_refresh_token, create_refresh_token, jwtEncode, jwtDecode, hexp]
  simp [refresh_access_token, hv]

/-- C9 witness: a refresh token for user 42 honored against an empty
users table. -/
theorem refresh_no_user_lookup_witness :
    refresh_access_token "k" (create_refresh_token "k" 42 0) 60 =
      Except.ok { access_token := create_access_token "k" 42 60
                  token_type := "bearer"
                  message := "Token refreshed successfully" } :=
  refresh_no_user_lookup "k" 42 0 60 [] (by decide) (by simp)

/-- C10.  Login failure is atomic: whenever login fails — unknown email,
or a registered email whose stored bcrypt hash does not match the
supplied password — the result is exactly the bare 401 `HTTPException`
value, raised before either `create_access_token` or
`create_refresh_token` runs; an `Except.error` carries no
`LoginSuccess`, so no access token is returned, no refresh token is
minted, and no `refresh_token` cookie is set. -/
theorem login_failure_atomic
    (digestFn : String → String → Nat → String) (secret : String)
    (db : List User) (email pw : String) (now : Nat)
    (hfail : findUserByEmail db email = none ∨
      ∃ user c s d, findUserByEmail db email = some user ∧
        user.password = StoredHash.bcrypt c s d ∧ digestFn pw s c ≠ d) :
    login digestFn secret db email pw now =
      Except.error (PyError.http
        { status_code := 401, detail := "Invalid email or password"
          headers := none }) := by
  rcases hfail with habsent | ⟨user, c, s, d, hfound, hhash, hwrong⟩
  · simp [login, habsent]
  · simp [login, hfound, hhash, verify_password, bcrypt_checkpw, hwrong]

/-- C10 witness: a login against an empty users table fails with the
bare 401 error value. -/
theorem login_failure_atomic_witness :
    login (fun p s _ => p ++ s) "k" [] "a@x.com" "pw" 100 =
      Except.error (PyError.http
        { status_code := 401, detail := "Invalid email or password"
          headers := none }) :=
  login_failure_atomic (fun p s _ => p ++ s) "k" [] "a@x.com" "pw" 100
    (Or.inl rfl)

end Isidro
